import Mathlib

/-!
Shallow embedding of the Docker Model Runner client
(`dockermodelrunner/desktop/desktop.go` and the model wire types in
`dockermodelrunner/models/api.go`), with proofs of the spec's testable
properties.

Modelling conventions:
* HTTP I/O is abstracted by passing the outcome of `c.dockerClient.Do`
  (either a transport error message or an `HTTPResponse`) as an argument.
* A response body can be consumed two ways in the source: `io.ReadAll`
  (modelled by `bodyRead : Except String String`) or a `bufio.Scanner`
  over its lines (modelled by `bodyLines : List Line`).
* Each scanner line is classified by what `json.Unmarshal` (after
  `html.UnescapeString`) would do to it: empty, malformed, or a decoded
  `ProgressMessage`.  This is the `Line` inductive.
* Go `error` values in this client are either the `ErrServiceUnavailable`
  sentinel (compared with `errors.Is`) or an ordinary error carrying a
  message; `QueryError` reflects exactly that.
* Go strings are modelled as Lean `String`; indices are character
  positions (all identifiers involved are ASCII, where Go's byte
  positions coincide with character positions).
-/

namespace DockerSDK

/-- Models `inference.ModelsPrefix` ("/models"). -/
def modelsPrefix : String := "/models"

/-- Models `inference.InferencePrefix` ("/engines"). -/
def inferencePrefix : String := "/engines"

/-- Models `inference.ExperimentalEndpointsPrefix`. -/
def experimentalEndpointsPrefix : String := "/exp/vDD4.40"

/-- Models `desktop.ProgressMessage`: one decoded progress-stream message. -/
structure ProgressMessage where
  type : String
  message : String
deriving Repr, DecidableEq

/-- One scanner line of a streaming response body, classified by its
decode outcome: empty line, line whose JSON decode fails (carrying the
decode error text), or line decoding to a `ProgressMessage`. -/
inductive Line where
  | blank : Line
  | malformed : String → Line
  | msg : ProgressMessage → Line
deriving Repr, DecidableEq

/-- A `"progress"`-typed line carrying message `s`. -/
def progressLine (s : String) : Line := Line.msg ⟨"progress", s⟩

/-- Drop the blank lines of a stream (the loop `continue`s on them). -/
def stripBlanks : List Line → List Line
  | [] => []
  | Line.blank :: rest => stripBlanks rest
  | l :: rest => l :: stripBlanks rest

/-- Equality on `Except` outcomes is decidable when it is on both sides. -/
def exceptDecEq {ε α : Type} [DecidableEq ε] [DecidableEq α] :
    (x y : Except ε α) → Decidable (x = y)
  | Except.ok a, Except.ok b =>
      if h : a = b then Decidable.isTrue (by rw [h])
      else Decidable.isFalse (by intro he; cases he; exact h rfl)
  | Except.error a, Except.error b =>
      if h : a = b then Decidable.isTrue (by rw [h])
      else Decidable.isFalse (by intro he; cases he; exact h rfl)
  | Except.ok _, Except.error _ => Decidable.isFalse (by intro he; cases he)
  | Except.error _, Except.ok _ => Decidable.isFalse (by intro he; cases he)

instance {ε α : Type} [DecidableEq ε] [DecidableEq α] :
    DecidableEq (Except ε α) := exceptDecEq

/-- An HTTP response as the client observes it: status code,
status text (`resp.Status`), the outcome of `io.ReadAll(resp.Body)`,
and the body as scanner lines (for the streaming operations). -/
structure HTTPResponse where
  statusCode : Nat
  status : String
  bodyRead : Except String String
  bodyLines : List Line
deriving Repr, DecidableEq

/-- A failed request's error value: the `ErrServiceUnavailable` sentinel
(detected with `errors.Is`) or any other error rendered by its message. -/
inductive QueryError where
  | serviceUnavailable : QueryError
  | other : String → QueryError
deriving Repr, DecidableEq

/-- Models `err.Error()`: the human-readable rendering of a `QueryError`
(`errors.New("service unavailable")` for the sentinel). -/
def QueryError.render : QueryError → String
  | QueryError.serviceUnavailable => "service unavailable"
  | QueryError.other m => m

/-- Models `Client.doRequest` (desktop.go:441-461), given the outcome of the
underlying `c.dockerClient.Do` call: a transport failure propagates
unchanged; a 503 response yields the `ErrServiceUnavailable` sentinel;
any other response is returned to the caller. -/
def doRequest (doResult : Except String HTTPResponse) :
    Except QueryError HTTPResponse :=
  match doResult with
  | Except.error e => Except.error (QueryError.other e)
  | Except.ok resp =>
      if resp.statusCode = 503 then Except.error QueryError.serviceUnavailable
      else Except.ok resp

/-- Whether `doRequest` itself closed the response body
(the `resp.Body.Close()` on the 503 branch, desktop.go:456). -/
def doRequestClosedBody (doResult : Except String HTTPResponse) : Bool :=
  match doResult with
  | Except.error _ => false
  | Except.ok resp => resp.statusCode = 503

/-- Models `Client.handleQueryError` (desktop.go:464-469): the sentinel passes
through unwrapped; every other error is wrapped with the request path. -/
def handleQueryError (e : QueryError) (path : String) : QueryError :=
  match e with
  | QueryError.serviceUnavailable => QueryError.serviceUnavailable
  | QueryError.other m => QueryError.other ("error querying " ++ path ++ ": " ++ m)

/-- Everything a Pull/Push call yields: the progress messages forwarded
to the caller's sink (in order), the returned result string, the
returned `progressShown` flag, and the returned error (if any). -/
structure StreamOutcome where
  events : List String
  result : String
  progressShown : Bool
  err : Option String
deriving Repr, DecidableEq

/-- The shared scan loop of `Client.Pull` (desktop.go:117-145) and
`Client.Push` (desktop.go:168-196), parameterised by the operation's
gerund (`"pulling"` / `"pushing"`) used in its error strings.  `shown`
is the running `progressShown` flag and `acc` the progress messages
forwarded so far, most recent first. -/
def runStreamAux (g model : String) :
    List Line → Bool → List String → StreamOutcome
  | [], shown, acc =>
      ⟨acc.reverse, "", shown,
        some ("unexpected end of stream while " ++ g ++ " model " ++ model)⟩
  | Line.blank :: rest, shown, acc => runStreamAux g model rest shown acc
  | Line.malformed e :: _, shown, acc =>
      ⟨acc.reverse, "", shown, some ("error parsing progress message: " ++ e)⟩
  | Line.msg m :: rest, shown, acc =>
      if m.type = "progress" then
        runStreamAux g model rest true (m.message :: acc)
      else if m.type = "error" then
        ⟨acc.reverse, "", shown, some ("error " ++ g ++ " model: " ++ m.message)⟩
      else if m.type = "success" then
        ⟨acc.reverse, m.message, shown, none⟩
      else
        ⟨acc.reverse, "", shown, some ("unknown message type: " ++ m.type)⟩

/-- Models `body, _ := io.ReadAll(resp.Body)`: the read result with a read
error discarded (yielding the empty byte slice). -/
def readBodyIgnoringError (resp : HTTPResponse) : String :=
  match resp.bodyRead with
  | Except.ok b => b
  | Except.error _ => ""

/-- Models `Client.Pull` (desktop.go:93-146), given the outcome of the
underlying POST to `/models/create`.  (`json.Marshal` of a
`ModelCreateRequest`, a struct of strings, cannot fail and is omitted.) -/
def Pull (model : String) (doResult : Except String HTTPResponse) :
    StreamOutcome :=
  match doRequest doResult with
  | Except.error e =>
      ⟨[], "", false,
        some (handleQueryError e (modelsPrefix ++ "/create")).render⟩
  | Except.ok resp =>
      if resp.statusCode ≠ 200 then
        ⟨[], "", false,
          some ("pulling " ++ model ++ " failed with status " ++ resp.status
            ++ ": " ++ readBodyIgnoringError resp)⟩
      else
        runStreamAux "pulling" model resp.bodyLines false []

/-- Models `Client.Push` (desktop.go:149-197), given the outcome of the
underlying POST to `/models/<model>/push`. -/
def Push (model : String) (doResult : Except String HTTPResponse) :
    StreamOutcome :=
  match doRequest doResult with
  | Except.error e =>
      ⟨[], "", false,
        some (handleQueryError e
          (modelsPrefix ++ "/" ++ model ++ "/push")).render⟩
  | Except.ok resp =>
      if resp.statusCode ≠ 200 then
        ⟨[], "", false,
          some ("pushing " ++ model ++ " failed with status " ++ resp.status
            ++ ": " ++ readBodyIgnoringError resp)⟩
      else
        runStreamAux "pushing" model resp.bodyLines false []

/-- Models `strings.Contains(s, "/")`: whether `s` has a slash character
(for a one-character needle, substring search is containment). -/
def containsSlash (s : String) : Bool := s.data.contains '/'

/-- Models `strings.Trim(s, "/")`: remove all leading and trailing slashes. -/
def trimSlashes (s : String) : String :=
  String.mk
    (((s.data.dropWhile (· = '/')).reverse.dropWhile (· = '/')).reverse)

/-- Models `strings.TrimPrefix(s, pre)`: drop `pre` when it is a prefix,
otherwise return `s` unchanged. -/
def trimPrefix (s pre : String) : String :=
  if pre.data.isPrefixOf s.data then String.mk (s.data.drop pre.data.length)
  else s

/-- Go string slicing `s[lo:hi]`: the half-open range of positions, or
`none` when the bounds are out of range — in which case the running Go
program panics with "slice bounds out of range". -/
def goStringSlice (s : String) (lo hi : Nat) : Option String :=
  if lo ≤ hi ∧ hi ≤ s.data.length then
    some (String.mk ((s.data.drop lo).take (hi - lo)))
  else none

/-- Models `desktop.Config`: descriptive model metadata. -/
structure Config where
  format : String
  quantization : String
  parameters : String
  architecture : String
  size : String
deriving Repr, DecidableEq

/-- Go `time.Time` restricted to what this client constructs and
observes: seconds since the Unix epoch plus a sub-second nanosecond
part in `[0, 10^9)`. -/
structure GoTime where
  sec : Int
  nsec : Nat
deriving Repr, DecidableEq

/-- Models `t.Unix()`: the Unix-epoch second of the instant. -/
def GoTime.unix (t : GoTime) : Int := t.sec

/-- Models `time.Unix(sec, 0)`: the whole-second instant at `sec`. -/
def timeUnix (sec : Int) : GoTime := ⟨sec, 0⟩

/-- Models `desktop.Model`: one catalog entry as the client decodes it. -/
structure Model where
  ID : String
  Tags : List String
  Created : GoTime
  Config : Config
deriving Repr, DecidableEq

/-- What the catalog scan of `fullModelID` can do: return a full ID,
fall through to not-found, or panic (out-of-range slice). -/
inductive ScanResult where
  | found : String → ScanResult
  | notFound : ScanResult
  | panicked : ScanResult
deriving Repr, DecidableEq

/-- One iteration's match test (desktop.go:309):
`m.ID[7:19] == id || strings.TrimPrefix(m.ID, "sha256:") == id || m.ID == id`.
The slice `m.ID[7:19]` is evaluated first on every examined entry;
`none` marks the panic when `m.ID` is shorter than 19 bytes. -/
def matchEntry (m : Model) (id : String) : Option Bool :=
  match goStringSlice m.ID 7 19 with
  | none => none
  | some sub =>
      some (sub == id || trimPrefix m.ID "sha256:" == id || m.ID == id)

/-- The scan loop of `Client.fullModelID` (desktop.go:308-312). -/
def scanModels : List Model → String → ScanResult
  | [], _ => ScanResult.notFound
  | m :: rest, id =>
      match matchEntry m id with
      | none => ScanResult.panicked
      | some true => ScanResult.found m.ID
      | some false => scanModels rest id

/-- Outcome of `Client.fullModelID`: a resolved full ID, an error
message, or a runtime panic. -/
inductive ResolveOutcome where
  | resolved : String → ResolveOutcome
  | failed : String → ResolveOutcome
  | panicked : ResolveOutcome
deriving Repr, DecidableEq

/-- Models `Client.fullModelID` (desktop.go:297-315), given the combined
outcome of `listRaw` + `json.Unmarshal` (the decoded catalog or an
error message). -/
def fullModelID (listResult : Except String (List Model)) (id : String) :
    ResolveOutcome :=
  match listResult with
  | Except.error e => ResolveOutcome.failed e
  | Except.ok ms =>
      match scanModels ms id with
      | ScanResult.found full => ResolveOutcome.resolved full
      | ScanResult.notFound =>
          ResolveOutcome.failed ("model with ID " ++ id ++ " not found")
      | ScanResult.panicked => ResolveOutcome.panicked

/-- The identifier step of `Client.Inspect` (desktop.go:231-240), with
`r` the outcome `fullModelID` would produce if called.  Returns the
identifier used for the GET and whether a catalog fetch was issued, or
the "invalid model name" error. -/
def inspectResolve (r : Except String String) (model : String) :
    Except String (String × Bool) :=
  if model ≠ "" then
    if ¬ containsSlash (trimSlashes model) then
      match r with
      | Except.ok full => Except.ok (full, true)
      | Except.error _ => Except.error ("invalid model name: " ++ model)
    else Except.ok (model, false)
  else Except.ok (model, false)

/-- The identifier step of `Client.InspectOpenAI` (desktop.go:256-262).
On resolver failure the reported name is the resolver's returned string
(the empty string), as in the source's `if model, err = ...` reassignment. -/
def inspectOpenAIResolve (r : Except String String) (model : String) :
    Except String (String × Bool) :=
  if ¬ containsSlash (trimSlashes model) then
    match r with
    | Except.ok full => Except.ok (full, true)
    | Except.error _ => Except.error ("invalid model name: " ++ "")
  else Except.ok (model, false)

/-- The best-effort identifier step of `Client.Chat` (desktop.go:319-324):
resolver failure is ignored and the original token kept. -/
def chatResolve (r : Except String String) (model : String) :
    String × Bool :=
  if ¬ containsSlash (trimSlashes model) then
    match r with
    | Except.ok full => (full, true)
    | Except.error _ => (model, true)
  else (model, false)

/-- The best-effort identifier step of `Client.Tag` (desktop.go:474-479),
identical in shape to `chatResolve`. -/
def tagResolve (r : Except String String) (source : String) :
    String × Bool :=
  if ¬ containsSlash (trimSlashes source) then
    match r with
    | Except.ok full => (full, true)
    | Except.error _ => (source, true)
  else (source, false)

/-- The best-effort identifier step of one `Client.Remove` iteration
(desktop.go:397-402).  The guard is `strings.Contains(model, "/")`
without trimming, unlike the other operations. -/
def removeResolve (r : Except String String) (model : String) :
    String × Bool :=
  if ¬ containsSlash model then
    match r with
    | Except.ok full => (full, true)
    | Except.error _ => (model, true)
  else (model, false)

/-- What one `Client.Remove` call yields: the resolved identifiers a
DELETE was issued for (in order), the accumulated success-line string,
and the returned error (if any). -/
structure RemoveOutcome where
  requested : List String
  removed : String
  err : Option String
deriving Repr, DecidableEq

/-- The loop body of `Client.Remove` (desktop.go:394-433).  `resolver`
maps each token to what `fullModelID` would return for it, `responder`
maps each resolved identifier to the outcome of the DELETE's
`dockerClient.Do` call, `acc`/`req` carry the accumulated success
string and the identifiers already requested. -/
def removeLoop (resolver : String → Except String String)
    (responder : String → Except String HTTPResponse) (force : Bool) :
    List String → String → List String → RemoveOutcome
  | [], acc, req => ⟨req.reverse, acc, none⟩
  | model :: rest, acc, req =>
      let model' := (removeResolve (resolver model) model).1
      let removePath := modelsPrefix ++ "/" ++ model' ++ "?force="
        ++ (if force then "true" else "false")
      match doRequest (responder model') with
      | Except.error e =>
          ⟨(model' :: req).reverse, acc,
            some (handleQueryError e removePath).render⟩
      | Except.ok resp =>
          if resp.statusCode ≠ 200 then
            if resp.statusCode = 404 then
              ⟨(model' :: req).reverse, acc,
                some ("no such model: " ++ model')⟩
            else
              ⟨(model' :: req).reverse, acc,
                some ("removing " ++ model' ++ " failed with status "
                  ++ resp.status ++ ": "
                  ++ (match resp.bodyRead with
                      | Except.ok b => b
                      | Except.error e =>
                          "(failed to read response body: " ++ e ++ ")"))⟩
          else
            removeLoop resolver responder force rest
              (acc ++ "Model " ++ model' ++ " removed successfully\n")
              (model' :: req)

/-- Models `Client.Remove` (desktop.go:394-433) over a list of tokens. -/
def Remove (resolver : String → Except String String)
    (responder : String → Except String HTTPResponse) (force : Bool)
    (models : List String) : RemoveOutcome :=
  removeLoop resolver responder force models "" []

/-- Models `desktop.Status`: the record `Client.Status` returns. -/
structure StatusRec where
  running : Bool
  status : String
  error : Option QueryError
deriving Repr, DecidableEq

/-- Models `Client.Status` (desktop.go:51-90), given the outcome of the
listing request's `Do` call and (when reached) of the status request's
`Do` call.  The second request's error is embedded into the status
text without `handleQueryError`, as in the source. -/
def statusOp (listResult statusResult : Except String HTTPResponse) :
    StatusRec :=
  match doRequest listResult with
  | Except.error e =>
      match handleQueryError e modelsPrefix with
      | QueryError.serviceUnavailable => ⟨false, "", none⟩
      | e' => ⟨false, "", some e'⟩
  | Except.ok resp =>
      if resp.statusCode = 200 then
        let st :=
          match doRequest statusResult with
          | Except.error e => "error querying status: " ++ e.render
          | Except.ok statusResp =>
              match statusResp.bodyRead with
              | Except.error e => "error reading status body: " ++ e
              | Except.ok b => b
        ⟨true, st, none⟩
      else
        ⟨false, "",
          some (QueryError.other
            ("unexpected status code: " ++ toString resp.statusCode))⟩

/-- Models `models.OpenAIModel` (models/api.go): a model in OpenAI conventions,
with `Created` a `time.Time`. -/
structure OpenAIModel where
  ID : String
  Object : String
  Created : GoTime
  OwnedBy : String
deriving Repr, DecidableEq

/-- Models `models.openAIModelResponseJSON`: the wire shape of `OpenAIModel`,
with the creation time as its Unix-epoch integer under `"created"`. -/
structure OpenAIModelWire where
  ID : String
  Object : String
  OwnedBy : String
  CreatedAt : Int
deriving Repr, DecidableEq

/-- Models `OpenAIModel.MarshalJSON` (models/api.go:156-161): the wire record
it serialises. -/
def OpenAIModel.marshal (m : OpenAIModel) : OpenAIModelWire :=
  ⟨m.ID, m.Object, m.OwnedBy, m.Created.unix⟩

/-- Models `OpenAIModel.UnmarshalJSON` (models/api.go:145-153): decode the wire
record, then set `Created = time.Unix(CreatedAt, 0)`. -/
def OpenAIModelWire.unmarshal (w : OpenAIModelWire) : OpenAIModel :=
  ⟨w.ID, w.Object, timeUnix w.CreatedAt, w.OwnedBy⟩

/-- Models `desktop.modelResponseJSON`: the wire shape of `desktop.Model`, with
the creation time as its Unix-epoch integer under `"created"`. -/
structure ModelWire where
  ID : String
  Tags : List String
  Config : Config
  CreatedAt : Int
deriving Repr, DecidableEq

/-- Models `Model.MarshalJSON` (desktop types, part_001:155-160). -/
def Model.marshal (m : Model) : ModelWire :=
  ⟨m.ID, m.Tags, m.Config, m.Created.unix⟩

/-- Models `Model.UnmarshalJSON` (desktop types, part_001:144-152). -/
def ModelWire.unmarshal (w : ModelWire) : Model :=
  ⟨w.ID, w.Tags, timeUnix w.CreatedAt, w.Config⟩

/-- The per-entry match of the catalog scan as a total predicate: the
fixed-offset substring `ID[7:19]`, the `"sha256:"`-stripped identifier,
or the identifier itself equals the token.  It agrees with the loop's
test whenever the identifier is long enough for the slice. -/
def entryMatches (m : Model) (id : String) : Bool :=
  goStringSlice m.ID 7 19 == some id
    || trimPrefix m.ID "sha256:" == id || m.ID == id

/-- A resolver stub whose lookups always fail, so each Remove token is
used as supplied (best-effort resolution ignores the failure). -/
def stubResolver : String → Except String String :=
  fun _ => Except.error "model with ID not found"

/-- A concrete DELETE responder: 200 for `"a/x"`, 404 for everything else. -/
def respond404AfterA : String → Except String HTTPResponse :=
  fun m =>
    if m = "a/x" then Except.ok ⟨200, "200 OK", Except.ok "", []⟩
    else Except.ok ⟨404, "404 Not Found", Except.ok "nf", []⟩

/-- A concrete DELETE responder: 200 for `"a/x"`, 500 with body
`"kaboom"` for everything else. -/
def respond500AfterA : String → Except String HTTPResponse :=
  fun m =>
    if m = "a/x" then Except.ok ⟨200, "200 OK", Except.ok "", []⟩
    else Except.ok ⟨500, "500 Internal Server Error", Except.ok "kaboom", []⟩

/-- A concrete DELETE responder: 200 for `"a/x"`, 503 with body
`"BODY503"` for everything else. -/
def respond503AfterA : String → Except String HTTPResponse :=
  fun m =>
    if m = "a/x" then Except.ok ⟨200, "200 OK", Except.ok "", []⟩
    else Except.ok ⟨503, "503 Service Unavailable", Except.ok "BODY503", []⟩

/-! ## Stream-loop lemmas -/

/-- One step of the loop at a `"success"` line: stop and return its message. -/
theorem runStreamAux_success_cons (g model r : String) (rest : List Line)
    (shown : Bool) (acc : List String) :
    runStreamAux g model (Line.msg ⟨"success", r⟩ :: rest) shown acc
      = ⟨acc.reverse, r, shown, none⟩ := by
  simp [runStreamAux]

/-- One step of the loop at an `"error"` line: stop and fail with its message. -/
theorem runStreamAux_error_cons (g model e : String) (rest : List Line)
    (shown : Bool) (acc : List String) :
    runStreamAux g model (Line.msg ⟨"error", e⟩ :: rest) shown acc
      = ⟨acc.reverse, "", shown, some ("error " ++ g ++ " model: " ++ e)⟩ := by
  simp [runStreamAux]

/-- The loop at end of stream: fail with the truncation message. -/
theorem runStreamAux_nil (g model : String) (shown : Bool) (acc : List String) :
    runStreamAux g model [] shown acc
      = ⟨acc.reverse, "", shown,
          some ("unexpected end of stream while " ++ g ++ " model " ++ model)⟩ :=
  rfl

/-- Running the loop over a prefix whose non-blank lines are exactly the
`"progress"` lines `ps` forwards every one of them, in order, and
continues with the remainder of the stream. -/
theorem runStreamAux_progress_run (g model : String) (pre : List Line) :
    ∀ (ps : List String) (rest : List Line) (shown : Bool) (acc : List String),
      stripBlanks pre = ps.map progressLine →
      runStreamAux g model (pre ++ rest) shown acc
        = runStreamAux g model rest (shown || !ps.isEmpty) (ps.reverse ++ acc) := by
  induction pre with
  | nil =>
      intro ps rest shown acc h
      cases ps with
      | nil => simp
      | cons p ps' => simp [stripBlanks] at h
  | cons l pre' ih =>
      intro ps rest shown acc h
      cases l with
      | blank =>
          have h' : stripBlanks pre' = ps.map progressLine := by
            simpa [stripBlanks] using h
          simpa [runStreamAux] using ih ps rest shown acc h'
      | malformed e =>
          cases ps with
          | nil => simp [stripBlanks] at h
          | cons p ps' => simp [stripBlanks, progressLine] at h
      | msg m =>
          cases ps with
          | nil => simp [stripBlanks] at h
          | cons p ps' =>
              have hm : m = (⟨"progress", p⟩ : ProgressMessage)
                  ∧ stripBlanks pre' = ps'.map progressLine := by
                simpa [stripBlanks, progressLine] using h
              obtain ⟨hm1, hm2⟩ := hm
              subst hm1
              have hrec := ih ps' rest true (p :: acc) hm2
              calc runStreamAux g model
                    (Line.msg ⟨"progress", p⟩ :: pre' ++ rest) shown acc
                  = runStreamAux g model (pre' ++ rest) true (p :: acc) := by
                    rw [List.cons_append, runStreamAux, if_pos rfl]
                _ = runStreamAux g model rest (true || !ps'.isEmpty)
                      (ps'.reverse ++ p :: acc) := hrec
                _ = runStreamAux g model rest (shown || !(p :: ps').isEmpty)
                      ((p :: ps').reverse ++ acc) := by
                    simp [List.append_assoc]

/-- C1: for every pull or push progress stream whose lines, after
skipping blanks and decoding, consist of zero or more `"progress"`
messages followed by a `"success"` message, Pull (resp. Push) returns
the success line's message with no error, and every preceding progress
message was forwarded to the sink exactly once, in stream order. -/
theorem pull_push_success_stream
    (model r : String) (resp : HTTPResponse) (pre tail : List Line)
    (ps : List String)
    (h200 : resp.statusCode = 200)
    (hbody : resp.bodyLines = pre ++ (Line.msg ⟨"success", r⟩ :: tail))
    (hpre : stripBlanks pre = ps.map progressLine) :
    Pull model (Except.ok resp) = ⟨ps, r, !ps.isEmpty, none⟩
    ∧ Push model (Except.ok resp) = ⟨ps, r, !ps.isEmpty, none⟩ := by
  have key : ∀ g, runStreamAux g model resp.bodyLines false []
      = ⟨ps, r, !ps.isEmpty, none⟩ := by
    intro g
    rw [hbody, runStreamAux_progress_run g model pre ps _ false [] hpre,
      runStreamAux_success_cons]
    simp
  refine ⟨?_, ?_⟩
  · simpa [Pull, doRequest, h200] using key "pulling"
  · simpa [Push, doRequest, h200] using key "pushing"

/-- Witness for C1 at a concrete stream. -/
theorem pull_push_success_stream_witness :
    (⟨200, "200 OK", Except.ok "", [progressLine "p1", Line.blank,
        progressLine "p2", Line.msg ⟨"success", "done"⟩,
        Line.malformed "junk"]⟩ : HTTPResponse).statusCode = 200
    ∧ (Pull "m" (Except.ok ⟨200, "200 OK", Except.ok "",
          [progressLine "p1", Line.blank, progressLine "p2",
            Line.msg ⟨"success", "done"⟩, Line.malformed "junk"]⟩)
        = ⟨["p1", "p2"], "done", !(["p1", "p2"] : List String).isEmpty, none⟩
      ∧ Push "m" (Except.ok ⟨200, "200 OK", Except.ok "",
          [progressLine "p1", Line.blank, progressLine "p2",
            Line.msg ⟨"success", "done"⟩, Line.malformed "junk"]⟩)
        = ⟨["p1", "p2"], "done", !(["p1", "p2"] : List String).isEmpty, none⟩) :=
  ⟨rfl, pull_push_success_stream "m" "done"
    ⟨200, "200 OK", Except.ok "", [progressLine "p1", Line.blank,
      progressLine "p2", Line.msg ⟨"success", "done"⟩, Line.malformed "junk"]⟩
    [progressLine "p1", Line.blank, progressLine "p2"]
    [Line.malformed "junk"] ["p1", "p2"] rfl rfl (by decide)⟩

/-- C2: for every pull or push progress stream in which, after zero or
more forwarded `"progress"` lines, a decoded line has type `"error"`,
Pull (resp. Push) stops reading at that line and returns a failure whose
message contains (indeed ends with) that line's message; the progress
events already forwarded are kept. -/
theorem pull_push_error_stream
    (model e : String) (resp : HTTPResponse) (pre tail : List Line)
    (ps : List String)
    (h200 : resp.statusCode = 200)
    (hbody : resp.bodyLines = pre ++ (Line.msg ⟨"error", e⟩ :: tail))
    (hpre : stripBlanks pre = ps.map progressLine) :
    Pull model (Except.ok resp)
      = ⟨ps, "", !ps.isEmpty, some ("error pulling model: " ++ e)⟩
    ∧ Push model (Except.ok resp)
      = ⟨ps, "", !ps.isEmpty, some ("error pushing model: " ++ e)⟩ := by
  have key : ∀ g, runStreamAux g model resp.bodyLines false []
      = ⟨ps, "", !ps.isEmpty, some ("error " ++ g ++ " model: " ++ e)⟩ := by
    intro g
    rw [hbody, runStreamAux_progress_run g model pre ps _ false [] hpre,
      runStreamAux_error_cons]
    simp
  refine ⟨?_, ?_⟩
  · simpa [Pull, doRequest, h200] using key "pulling"
  · simpa [Push, doRequest, h200] using key "pushing"

/-- Witness for C2 at a concrete stream. -/
theorem pull_push_error_stream_witness :
    Pull "m" (Except.ok ⟨200, "200 OK", Except.ok "",
        [progressLine "p1", Line.msg ⟨"error", "boom"⟩, Line.malformed "junk"]⟩)
      = ⟨["p1"], "", !(["p1"] : List String).isEmpty,
          some ("error pulling model: " ++ "boom")⟩
    ∧ Push "m" (Except.ok ⟨200, "200 OK", Except.ok "",
        [progressLine "p1", Line.msg ⟨"error", "boom"⟩, Line.malformed "junk"]⟩)
      = ⟨["p1"], "", !(["p1"] : List String).isEmpty,
          some ("error pushing model: " ++ "boom")⟩ :=
  pull_push_error_stream "m" "boom"
    ⟨200, "200 OK", Except.ok "",
      [progressLine "p1", Line.msg ⟨"error", "boom"⟩, Line.malformed "junk"]⟩
    [progressLine "p1"] [Line.malformed "junk"] ["p1"] rfl rfl (by decide)

/-- C3: for every pull or push progress stream the loop consumes to
end-of-stream — every line blank or a forwarded `"progress"` message,
including the empty stream — Pull (resp. Push) returns the empty string
and a truncation failure naming the model being pulled or pushed. -/
theorem pull_push_truncated_stream
    (model : String) (resp : HTTPResponse) (ps : List String)
    (h200 : resp.statusCode = 200)
    (hbody : stripBlanks resp.bodyLines = ps.map progressLine) :
    Pull model (Except.ok resp)
      = ⟨ps, "", !ps.isEmpty,
          some ("unexpected end of stream while pulling model " ++ model)⟩
    ∧ Push model (Except.ok resp)
      = ⟨ps, "", !ps.isEmpty,
          some ("unexpected end of stream while pushing model " ++ model)⟩ := by
  have key : ∀ g, runStreamAux g model resp.bodyLines false []
      = ⟨ps, "", !ps.isEmpty,
          some ("unexpected end of stream while " ++ g ++ " model " ++ model)⟩ := by
    intro g
    have h := runStreamAux_progress_run g model resp.bodyLines ps [] false [] hbody
    rw [List.append_nil] at h
    rw [h, runStreamAux_nil]
    simp
  refine ⟨?_, ?_⟩
  · simpa [Pull, doRequest, h200] using key "pulling"
  · simpa [Push, doRequest, h200] using key "pushing"

/-- Witness for C3 at a concrete stream of blanks and progress lines. -/
theorem pull_push_truncated_stream_witness :
    Pull "mdl" (Except.ok ⟨200, "200 OK", Except.ok "",
        [Line.blank, progressLine "p1", Line.blank]⟩)
      = ⟨["p1"], "", !(["p1"] : List String).isEmpty,
          some ("unexpected end of stream while pulling model " ++ "mdl")⟩
    ∧ Push "mdl" (Except.ok ⟨200, "200 OK", Except.ok "",
        [Line.blank, progressLine "p1", Line.blank]⟩)
      = ⟨["p1"], "", !(["p1"] : List String).isEmpty,
          some ("unexpected end of stream while pushing model " ++ "mdl")⟩ :=
  pull_push_truncated_stream "mdl"
    ⟨200, "200 OK", Except.ok "", [Line.blank, progressLine "p1", Line.blank]⟩
    ["p1"] rfl (by decide)

/-! ## Transport wrapper, Status, and wire-format round trip -/

/-- C4: a response with status 503 always yields the serviceUnavailable
sentinel from the transport wrapper — with the response body closed by
the wrapper, never a generic transport error and never a response,
whatever the body holds — and handleQueryError passes the sentinel
through unwrapped while wrapping every other failure with the path. -/
theorem doRequest_503_sentinel :
    (∀ resp : HTTPResponse, resp.statusCode = 503 →
        doRequest (Except.ok resp) = Except.error QueryError.serviceUnavailable
        ∧ doRequestClosedBody (Except.ok resp) = true)
    ∧ (∀ path : String,
        handleQueryError QueryError.serviceUnavailable path
          = QueryError.serviceUnavailable)
    ∧ (∀ m path : String,
        handleQueryError (QueryError.other m) path
          = QueryError.other ("error querying " ++ path ++ ": " ++ m)) := by
  refine ⟨fun resp h => ⟨?_, ?_⟩, fun path => rfl, fun m path => rfl⟩
  · simp [doRequest, h]
  · simp [doRequestClosedBody, h]

/-- Witness for C4 at a concrete 503 response with a non-empty body. -/
theorem doRequest_503_sentinel_witness :
    doRequest (Except.ok ⟨503, "503 Service Unavailable",
        Except.ok "arbitrary body", [progressLine "x"]⟩)
      = Except.error QueryError.serviceUnavailable
    ∧ doRequestClosedBody (Except.ok ⟨503, "503 Service Unavailable",
        Except.ok "arbitrary body", [progressLine "x"]⟩) = true
    ∧ handleQueryError QueryError.serviceUnavailable "/models"
      = QueryError.serviceUnavailable
    ∧ handleQueryError (QueryError.other "boom") "/models"
      = QueryError.other ("error querying " ++ "/models" ++ ": " ++ "boom") :=
  ⟨(doRequest_503_sentinel.1 _ rfl).1, (doRequest_503_sentinel.1 _ rfl).2,
    doRequest_503_sentinel.2.1 "/models",
    doRequest_503_sentinel.2.2 "boom" "/models"⟩

/-- C8: Status reports Running=false with no error when the listing
fails with the serviceUnavailable sentinel, Running=false with the
wrapped error attached when the listing fails any other way, and on a
200 listing reports Running=true, embedding any failure of the second
(status-text) request — sentinel, transport error, or body-read error —
as placeholder status text rather than an operation error. -/
theorem status_never_errors_unavailable :
    (∀ (resp : HTTPResponse) (sres : Except String HTTPResponse),
        resp.statusCode = 503 →
        statusOp (Except.ok resp) sres = ⟨false, "", none⟩)
    ∧ (∀ (e : String) (sres : Except String HTTPResponse),
        statusOp (Except.error e) sres
          = ⟨false, "", some (QueryError.other
              ("error querying " ++ modelsPrefix ++ ": " ++ e))⟩)
    ∧ (∀ (resp : HTTPResponse) (e : String), resp.statusCode = 200 →
        statusOp (Except.ok resp) (Except.error e)
          = ⟨true, "error querying status: " ++ e, none⟩)
    ∧ (∀ resp sresp : HTTPResponse, resp.statusCode = 200 →
        sresp.statusCode = 503 →
        statusOp (Except.ok resp) (Except.ok sresp)
          = ⟨true, "error querying status: service unavailable", none⟩)
    ∧ (∀ (resp sresp : HTTPResponse) (eb : String), resp.statusCode = 200 →
        sresp.statusCode ≠ 503 → sresp.bodyRead = Except.error eb →
        statusOp (Except.ok resp) (Except.ok sresp)
          = ⟨true, "error reading status body: " ++ eb, none⟩)
    ∧ (∀ (resp sresp : HTTPResponse) (b : String), resp.statusCode = 200 →
        sresp.statusCode ≠ 503 → sresp.bodyRead = Except.ok b →
        statusOp (Except.ok resp) (Except.ok sresp) = ⟨true, b, none⟩) := by
  refine ⟨?_, ?_, ?_, ?_, ?_, ?_⟩
  · intro resp sres h
    simp [statusOp, doRequest, h, handleQueryError]
  · intro e sres
    simp [statusOp, doRequest, handleQueryError]
  · intro resp e h
    simp [statusOp, doRequest, h, QueryError.render]
  · intro resp sresp h hs
    simp [statusOp, doRequest, h, hs, QueryError.render]
  · intro resp sresp eb h hs hb
    simp [statusOp, doRequest, h, hs, hb]
  · intro resp sresp b h hs hb
    simp [statusOp, doRequest, h, hs, hb]

/-- Witness for C8: all six cases at concrete responses. -/
theorem status_never_errors_unavailable_witness :
    statusOp (Except.ok ⟨503, "503", Except.ok "", []⟩) (Except.error "x")
      = ⟨false, "", none⟩
    ∧ statusOp (Except.error "conn refused") (Except.error "x")
      = ⟨false, "", some (QueryError.other
          ("error querying " ++ modelsPrefix ++ ": " ++ "conn refused"))⟩
    ∧ statusOp (Except.ok ⟨200, "200 OK", Except.ok "", []⟩)
        (Except.error "dial failed")
      = ⟨true, "error querying status: " ++ "dial failed", none⟩
    ∧ statusOp (Except.ok ⟨200, "200 OK", Except.ok "", []⟩)
        (Except.ok ⟨503, "503", Except.ok "ignored", []⟩)
      = ⟨true, "error querying status: service unavailable", none⟩
    ∧ statusOp (Except.ok ⟨200, "200 OK", Except.ok "", []⟩)
        (Except.ok ⟨200, "200 OK", Except.error "read failed", []⟩)
      = ⟨true, "error reading status body: " ++ "read failed", none⟩
    ∧ statusOp (Except.ok ⟨200, "200 OK", Except.ok "", []⟩)
        (Except.ok ⟨200, "200 OK", Except.ok "live status", []⟩)
      = ⟨true, "live status", none⟩ :=
  ⟨status_never_errors_unavailable.1 _ (Except.error "x") rfl,
    status_never_errors_unavailable.2.1 "conn refused" (Except.error "x"),
    status_never_errors_unavailable.2.2.1 _ "dial failed" rfl,
    status_never_errors_unavailable.2.2.2.1 _ _ rfl rfl,
    status_never_errors_unavailable.2.2.2.2.1 _ _ "read failed" rfl
      (by decide) rfl,
    status_never_errors_unavailable.2.2.2.2.2 _ _ "live status" rfl
      (by decide) rfl⟩

/-- C9: marshalling a model record whose creation time is a whole-second
instant (encoding the creation time as its Unix-epoch integer) and
unmarshalling the result back yields the same record — in particular the
same creation instant — both for the desktop Model and the OpenAI model. -/
theorem created_time_roundtrip :
    (∀ m : Model, m.Created.nsec = 0 →
        ModelWire.unmarshal (Model.marshal m) = m)
    ∧ (∀ m : OpenAIModel, m.Created.nsec = 0 →
        OpenAIModelWire.unmarshal (OpenAIModel.marshal m) = m) := by
  constructor
  · rintro ⟨i, t, ⟨sec, nsec⟩, c⟩ h
    simp only [GoTime.nsec] at h
    subst h
    rfl
  · rintro ⟨i, o, ⟨sec, nsec⟩, w⟩ h
    simp only [GoTime.nsec] at h
    subst h
    rfl

/-- Witness for C9 at concrete records with whole-second timestamps. -/
theorem created_time_roundtrip_witness :
    ModelWire.unmarshal (Model.marshal
        ⟨"model123", ["tag1"], ⟨1682179200, 0⟩,
          ⟨"gguf", "Q4", "7B", "llama", "4GB"⟩⟩)
      = ⟨"model123", ["tag1"], ⟨1682179200, 0⟩,
          ⟨"gguf", "Q4", "7B", "llama", "4GB"⟩⟩
    ∧ OpenAIModelWire.unmarshal (OpenAIModel.marshal
        ⟨"model123", "model", ⟨1682179200, 0⟩, "docker"⟩)
      = ⟨"model123", "model", ⟨1682179200, 0⟩, "docker"⟩ :=
  ⟨created_time_roundtrip.1 _ rfl, created_time_roundtrip.2 _ rfl⟩

/-! ## Identifier resolution -/

/-- A token still containing a slash after trimming surrounding slashes
contains a slash. -/
theorem containsSlash_of_trim (s : String)
    (h : containsSlash (trimSlashes s) = true) : containsSlash s = true := by
  have h1 : ('/' : Char) ∈
      ((s.data.dropWhile (· = '/')).reverse.dropWhile (· = '/')).reverse := by
    simpa [containsSlash, trimSlashes] using h
  have h2 : ('/' : Char) ∈
      (s.data.dropWhile (· = '/')).reverse.dropWhile (· = '/') := by
    simpa using h1
  have h3 : ('/' : Char) ∈ (s.data.dropWhile (· = '/')).reverse :=
    (List.dropWhile_suffix _).subset h2
  have h4 : ('/' : Char) ∈ s.data.dropWhile (· = '/') := by
    simpa using h3
  have h5 : ('/' : Char) ∈ s.data := (List.dropWhile_suffix _).subset h4
  simpa [containsSlash] using h5

/-- C5: a token that still contains a slash after trimming surrounding
slashes is used unchanged by every identifier-scoped operation — Inspect,
InspectOpenAI, Chat, Tag and Remove — and none of them issues a
catalog-listing fetch to resolve it (the fetched flag is false, whatever
the resolver would have answered). -/
theorem canonical_identifier_short_circuit
    (model : String) (r : Except String String)
    (h : containsSlash (trimSlashes model) = true) :
    inspectResolve r model = Except.ok (model, false)
    ∧ inspectOpenAIResolve r model = Except.ok (model, false)
    ∧ chatResolve r model = (model, false)
    ∧ tagResolve r model = (model, false)
    ∧ removeResolve r model = (model, false) := by
  have hm : model ≠ "" := by
    intro he
    rw [he] at h
    simp [trimSlashes, containsSlash] at h
  have hr : containsSlash model = true := containsSlash_of_trim model h
  refine ⟨?_, ?_, ?_, ?_, ?_⟩
  · simp [inspectResolve, hm, h]
  · simp [inspectOpenAIResolve, h]
  · simp [chatResolve, h]
  · simp [tagResolve, h]
  · simp [removeResolve, hr]

/-- Witness for C5 at the repo/tag token `"ai/llama:1.0"`, with a
resolver that would have answered something different. -/
theorem canonical_identifier_short_circuit_witness :
    inspectResolve (Except.ok "OTHER") "ai/llama:1.0"
      = Except.ok ("ai/llama:1.0", false)
    ∧ inspectOpenAIResolve (Except.ok "OTHER") "ai/llama:1.0"
      = Except.ok ("ai/llama:1.0", false)
    ∧ chatResolve (Except.ok "OTHER") "ai/llama:1.0"
      = ("ai/llama:1.0", false)
    ∧ tagResolve (Except.ok "OTHER") "ai/llama:1.0"
      = ("ai/llama:1.0", false)
    ∧ removeResolve (Except.ok "OTHER") "ai/llama:1.0"
      = ("ai/llama:1.0", false) :=
  canonical_identifier_short_circuit "ai/llama:1.0" (Except.ok "OTHER")
    (by decide)

/-- When the examined identifiers are long enough for the fixed-offset
slice, the per-entry test of the scan agrees with the total predicate
`entryMatches`. -/
theorem matchEntry_eq_entryMatches (m : Model) (id : String)
    (h : 19 ≤ m.ID.data.length) :
    matchEntry m id = some (entryMatches m id) := by
  have hslice : goStringSlice m.ID 7 19
      = some (String.mk ((m.ID.data.drop 7).take 12)) := by
    rw [goStringSlice, if_pos ⟨by norm_num, h⟩]
  rw [matchEntry, hslice, entryMatches, hslice]
  rfl

/-- When every catalog identifier is at least 19 bytes long, the scan
returns the first entry satisfying `entryMatches` (or falls through). -/
theorem scanModels_eq_find (id : String) :
    ∀ ms : List Model, (∀ m ∈ ms, 19 ≤ m.ID.data.length) →
      scanModels ms id
        = match ms.find? (fun m => entryMatches m id) with
          | some m => ScanResult.found m.ID
          | none => ScanResult.notFound := by
  intro ms
  induction ms with
  | nil => intro _; rfl
  | cons m rest ih =>
      intro h
      have hm : 19 ≤ m.ID.data.length := h m (List.mem_cons_self m rest)
      have hrest : ∀ m' ∈ rest, 19 ≤ m'.ID.data.length :=
        fun m' hm' => h m' (List.mem_cons_of_mem m hm')
      have hmatch := matchEntry_eq_entryMatches m id hm
      cases he : entryMatches m id with
      | true =>
          rw [scanModels, hmatch, he]
          simp [List.find?, he]
      | false =>
          rw [scanModels, hmatch, he]
          simp only [List.find?, he]
          exact ih hrest

/-- C6 counterexample: the catalog holds a single entry whose identifier
equals the token (the exact-equality predicate holds of the first
entry), yet resolution panics on the fixed-offset slice instead of
returning that entry's identifier. -/
theorem fullModelID_short_id_cex :
    ((⟨"abc", [], ⟨0, 0⟩, ⟨"", "", "", "", ""⟩⟩ : Model).ID = "abc")
    ∧ fullModelID
        (Except.ok [⟨"abc", [], ⟨0, 0⟩, ⟨"", "", "", "", ""⟩⟩]) "abc"
        = ResolveOutcome.panicked
    ∧ ResolveOutcome.panicked ≠ ResolveOutcome.resolved "abc" := by
  refine ⟨rfl, by decide, by decide⟩

/-- C6 (amended): provided every catalog identifier is at least 19 bytes
long, fullModelID returns the identifier of the first catalog entry
satisfying any of the three predicates — exact equality with the token,
equality after stripping the `"sha256:"` prefix, or equality of the
fixed-offset substring `ID[7:19]` — and fails with a not-found message
carrying the token when no entry satisfies any of them. -/
theorem fullModelID_first_match (ms : List Model) (id : String)
    (hlen : ∀ m ∈ ms, 19 ≤ m.ID.data.length) :
    fullModelID (Except.ok ms) id
      = match ms.find? (fun m => entryMatches m id) with
        | some m => ResolveOutcome.resolved m.ID
        | none =>
            ResolveOutcome.failed ("model with ID " ++ id ++ " not found") := by
  rw [fullModelID, scanModels_eq_find id ms hlen]
  cases hf : ms.find? (fun m => entryMatches m id) with
  | none => rfl
  | some m => rfl

/-- Witness for C6 at a concrete catalog: the short-prefix token
resolves to the full identifier, and an unmatched token is not found. -/
theorem fullModelID_first_match_witness :
    fullModelID (Except.ok
        [⟨"sha256:abcdef123456rest", [], ⟨0, 0⟩, ⟨"", "", "", "", ""⟩⟩])
        "abcdef123456"
      = ResolveOutcome.resolved "sha256:abcdef123456rest"
    ∧ fullModelID (Except.ok
        [⟨"sha256:abcdef123456rest", [], ⟨0, 0⟩, ⟨"", "", "", "", ""⟩⟩])
        "nomatch"
      = ResolveOutcome.failed ("model with ID " ++ "nomatch" ++ " not found") :=
  ⟨(fullModelID_first_match _ "abcdef123456" (by decide)).trans (by decide),
    (fullModelID_first_match _ "nomatch" (by decide)).trans (by decide)⟩

/-- C10: the scan evaluates the slice `ID[7:19]` on every entry it
examines, so it is panic-free only under the precondition that every
catalog identifier is at least 19 bytes long; a catalog holding a
shorter identifier, with a token matching no earlier entry, makes
resolution panic instead of returning the not-found condition. -/
theorem fullModelID_slice_totality :
    (∀ (ms : List Model) (id : String),
        (∀ m ∈ ms, 19 ≤ m.ID.data.length) →
        scanModels ms id ≠ ScanResult.panicked)
    ∧ fullModelID
        (Except.ok [⟨"sha256:tiny", [], ⟨0, 0⟩, ⟨"", "", "", "", ""⟩⟩]) "zzz"
        = ResolveOutcome.panicked := by
  constructor
  · intro ms id h
    rw [scanModels_eq_find id ms h]
    cases ms.find? (fun m => entryMatches m id) with
    | none => simp
    | some m => simp
  · decide

/-- Witness for C10's totality half at a concrete long-identifier catalog. -/
theorem fullModelID_slice_totality_witness :
    scanModels [⟨"sha256:abcdef123456rest", [], ⟨0, 0⟩, ⟨"", "", "", "", ""⟩⟩]
        "unmatched-token"
      ≠ ScanResult.panicked :=
  fullModelID_slice_totality.1 _ "unmatched-token" (by decide)

/-! ## Remove batch behaviour -/

/-- C7 counterexample: with the DELETE for B answering 503, Remove
reports the service-unavailable sentinel, not a generic failure carrying
the response body as the claim states for every non-2xx status other
than 404. -/
theorem remove_503_cex :
    Remove stubResolver respond503AfterA true ["a/x", "b/y", "c/z"]
      = ⟨["a/x", "b/y"], "Model a/x removed successfully\n",
          some "service unavailable"⟩
    ∧ ((some "service unavailable" : Option String)
        ≠ some ("removing b/y failed with status 503 Service Unavailable: "
            ++ "BODY503")) := by
  refine ⟨by decide, by decide⟩

/-- One Remove iteration whose DELETE answers 200 accumulates the
success line and continues with the rest of the list. -/
theorem removeLoop_step_200 (resolver : String → Except String String)
    (responder : String → Except String HTTPResponse) (force : Bool)
    (model : String) (rest : List String) (acc : String) (req : List String)
    (resp : HTTPResponse)
    (hresp : responder (removeResolve (resolver model) model).1
      = Except.ok resp)
    (h200 : resp.statusCode = 200) :
    removeLoop resolver responder force (model :: rest) acc req
      = removeLoop resolver responder force rest
          (acc ++ "Model " ++ (removeResolve (resolver model) model).1
            ++ " removed successfully\n")
          ((removeResolve (resolver model) model).1 :: req) := by
  rw [removeLoop]
  simp [hresp, doRequest, h200]

/-- One Remove iteration whose DELETE answers 404 stops the batch with
the "no such model" failure. -/
theorem removeLoop_step_404 (resolver : String → Except String String)
    (responder : String → Except String HTTPResponse) (force : Bool)
    (model : String) (rest : List String) (acc : String) (req : List String)
    (resp : HTTPResponse)
    (hresp : responder (removeResolve (resolver model) model).1
      = Except.ok resp)
    (h404 : resp.statusCode = 404) :
    removeLoop resolver responder force (model :: rest) acc req
      = ⟨((removeResolve (resolver model) model).1 :: req).reverse, acc,
          some ("no such model: " ++ (removeResolve (resolver model) model).1)⟩ := by
  rw [removeLoop]
  simp [hresp, doRequest, h404]

/-- One Remove iteration whose DELETE answers any status other than
200, 404 and 503 stops the batch with the generic failure carrying the
response body. -/
theorem removeLoop_step_other (resolver : String → Except String String)
    (responder : String → Except String HTTPResponse) (force : Bool)
    (model : String) (rest : List String) (acc : String) (req : List String)
    (resp : HTTPResponse) (body : String)
    (hresp : responder (removeResolve (resolver model) model).1
      = Except.ok resp)
    (hn200 : resp.statusCode ≠ 200) (hn404 : resp.statusCode ≠ 404)
    (hn503 : resp.statusCode ≠ 503)
    (hbody : resp.bodyRead = Except.ok body) :
    removeLoop resolver responder force (model :: rest) acc req
      = ⟨((removeResolve (resolver model) model).1 :: req).reverse, acc,
          some ("removing " ++ (removeResolve (resolver model) model).1
            ++ " failed with status " ++ resp.status ++ ": " ++ body)⟩ := by
  rw [removeLoop]
  simp [hresp, doRequest, hn200, hn404, hn503, hbody]

/-- C7 (amended): Remove over `[A, B, C]` where the DELETE for the
resolved A returns 200 and the DELETE for the resolved B returns 404
stops without issuing a request for C, accumulates the success line for
A only, and fails with "no such model: B"; and any status on B other
than 200, 404 and 503 — in particular every other non-2xx status —
yields instead the generic failure carrying the response body (503
yields the service-unavailable sentinel, shown by the counterexample). -/
theorem remove_batch_stops :
    (∀ (resolver : String → Except String String)
        (responder : String → Except String HTTPResponse) (force : Bool)
        (A B C : String) (respA respB : HTTPResponse),
        responder (removeResolve (resolver A) A).1 = Except.ok respA →
        respA.statusCode = 200 →
        responder (removeResolve (resolver B) B).1 = Except.ok respB →
        respB.statusCode = 404 →
        Remove resolver responder force [A, B, C]
          = ⟨[(removeResolve (resolver A) A).1,
                (removeResolve (resolver B) B).1],
              "Model " ++ (removeResolve (resolver A) A).1
                ++ " removed successfully\n",
              some ("no such model: " ++ (removeResolve (resolver B) B).1)⟩)
    ∧ (∀ (resolver : String → Except String String)
        (responder : String → Except String HTTPResponse) (force : Bool)
        (A B C : String) (respA respB : HTTPResponse) (body : String),
        responder (removeResolve (resolver A) A).1 = Except.ok respA →
        respA.statusCode = 200 →
        responder (removeResolve (resolver B) B).1 = Except.ok respB →
        respB.statusCode ≠ 200 → respB.statusCode ≠ 404 →
        respB.statusCode ≠ 503 → respB.bodyRead = Except.ok body →
        Remove resolver responder force [A, B, C]
          = ⟨[(removeResolve (resolver A) A).1,
                (removeResolve (resolver B) B).1],
              "Model " ++ (removeResolve (resolver A) A).1
                ++ " removed successfully\n",
              some ("removing " ++ (removeResolve (resolver B) B).1
                ++ " failed with status " ++ respB.status ++ ": " ++ body)⟩) := by
  constructor
  · intro resolver responder force A B C respA respB hA h200 hB h404
    rw [Remove, removeLoop_step_200 resolver responder force A [B, C] "" []
        respA hA h200,
      removeLoop_step_404 resolver responder force B [C] _ _ respB hB h404]
    simp
  · intro resolver responder force A B C respA respB body
      hA h200 hB hn200 hn404 hn503 hbody
    rw [Remove, removeLoop_step_200 resolver responder force A [B, C] "" []
        respA hA h200,
      removeLoop_step_other resolver responder force B [C] _ _ respB body
        hB hn200 hn404 hn503 hbody]
    simp

/-- Witness for C7: both amended cases at concrete DELETE responders. -/
theorem remove_batch_stops_witness :
    Remove stubResolver respond404AfterA true ["a/x", "b/y", "c/z"]
      = ⟨["a/x", "b/y"], "Model a/x removed successfully\n",
          some "no such model: b/y"⟩
    ∧ Remove stubResolver respond500AfterA true ["a/x", "b/y", "c/z"]
      = ⟨["a/x", "b/y"], "Model a/x removed successfully\n",
          some "removing b/y failed with status 500 Internal Server Error: kaboom"⟩ :=
  ⟨(remove_batch_stops.1 stubResolver respond404AfterA true "a/x" "b/y" "c/z"
      ⟨200, "200 OK", Except.ok "", []⟩ ⟨404, "404 Not Found", Except.ok "nf", []⟩
      (by decide) rfl (by decide) rfl).trans (by decide),
    (remove_batch_stops.2 stubResolver respond500AfterA true "a/x" "b/y" "c/z"
      ⟨200, "200 OK", Except.ok "", []⟩
      ⟨500, "500 Internal Server Error", Except.ok "kaboom", []⟩ "kaboom"
      (by decide) rfl (by decide) (by decide) (by decide) (by decide)
      rfl).trans (by decide)⟩

end DockerSDK
